import Mathlib

/-!
Verification of the generic repository / data-access layer of the
repository (BaseModel, Correlation and Dataset models, BaseRepository and
its Dataset/Correlation subclasses, DatabaseManager.transaction).

The JavaScript source is shallowly embedded:
* entity instances become Lean structures whose fields mirror the
  constructor-assigned properties;
* the JS pattern `this.f = data.f || default` is embedded by the js-or
  helpers below (JS falsiness: empty string, 0, null/undefined/absent);
* `Object.assign(this, data)` in BaseModel's constructor runs after the
  id/createdAt/updatedAt defaulting, so a property explicitly present in
  `data` wins over the default even when it is falsy; its net effect on
  those three fields is `Option.getD`;
* nondeterministic inputs (uuidv4(), new Date().toISOString()) are passed
  in as explicit `fresh` / `now` arguments;
* the connection pool is abstracted as an `exec` oracle plus an explicit
  log of issued statements, so "no SQL issued" is "the log is unchanged".
-/

/-- JS `data.f || default` for string-typed fields: absent/undefined and
the empty string are falsy. -/
def jsOrStr (o : Option String) (d : String) : String :=
  match o with
  | none => d
  | some s => if s = "" then d else s

/-- JS `data.f || default` for number-typed fields: 0 is falsy. -/
def jsOrNum (o : Option ℚ) (d : ℚ) : ℚ :=
  match o with
  | none => d
  | some q => if q = 0 then d else q

/-- JS `data.f || default` for integer-typed fields: 0 is falsy. -/
def jsOrInt (o : Option Int) (d : Int) : Int :=
  match o with
  | none => d
  | some n => if n = 0 then d else n

/-- JS `data.f || null` for nullable string fields (`none` is
absent-or-null): any falsy value, including the empty string, collapses
to null. -/
def jsNullable (o : Option String) : Option String :=
  match o with
  | none => none
  | some s => if s = "" then none else some s

/-- JS objects (even empty ones) are truthy, so `data.f || default` on an
object-typed field only replaces absent/null. Objects are modelled as
integer-valued key/value lists: the only object property the source ever
reads or writes is the numeric `metadata.accessCount`. -/
abbrev JsObj := List (String × Int)

/-- Property read on a modelled JS object. -/
def JsObj.getNum (o : JsObj) (k : String) : Option Int :=
  (o.find? (fun p => p.1 = k)).map (fun p => p.2)

/-- Property write on a modelled JS object. -/
def JsObj.setNum (o : JsObj) (k : String) (v : Int) : JsObj :=
  if (o.find? (fun p => p.1 = k)).isSome then
    o.map (fun p => if p.1 = k then (k, v) else p)
  else
    o ++ [(k, v)]

/-! ## Joi schema primitives

`Joi.string().guid()` accepts the canonical 8-4-4-4-12 hexadecimal UUID
format; `Joi.date().iso()` is modelled on the canonical
`Date.prototype.toISOString` output the source always produces
(`YYYY-MM-DDTHH:MM:SS.mmmZ`). -/

/-- Hexadecimal digit test. -/
def isHexDigit (c : Char) : Bool :=
  c.isDigit || (('a' ≤ c && c ≤ 'f') || ('A' ≤ c && c ≤ 'F'))

/-- Split a character list on dashes (structural counterpart of
splitting the string on the dash separator). -/
def splitOnDash : List Char → List (List Char)
  | [] => [[]]
  | c :: cs =>
    let r := splitOnDash cs
    if c = '-' then [] :: r
    else
      match r with
      | [] => [[c]]
      | g :: gs => (c :: g) :: gs

/-- `Joi.string().guid()`: five dash-separated hex groups of sizes
8-4-4-4-12. -/
def isGuid (s : String) : Bool :=
  let parts := splitOnDash s.toList
  parts.map (fun p => p.length) = [8, 4, 4, 4, 12]
    && parts.all (fun p => p.all isHexDigit)

/-- `Joi.date().iso()` on the canonical `toISOString` shape
`YYYY-MM-DDTHH:MM:SS.mmmZ`. -/
def isIsoDate (s : String) : Bool :=
  let tmpl := "dddd-dd-ddTdd:dd:dd.dddZ".toList
  let cs := s.toList
  cs.length = tmpl.length
    && (cs.zip tmpl).all (fun p =>
        if p.2 = 'd' then p.1.isDigit else p.1 = p.2)

/-- The `type` enum of the Correlation schema. -/
def correlationTypes : List String :=
  ["one_to_one", "one_to_many", "many_to_one", "many_to_many",
   "weighted_many_to_many", "temporal", "spatial", "semantic",
   "statistical", "structural", "functional", "causal"]

/-- The `status` enum of the Correlation schema. -/
def correlationStatuses : List String :=
  ["proposed", "validated", "invalidated", "archived"]

/-- The `discoveryMethod` enum of the Correlation schema. -/
def discoveryMethods : List String :=
  ["neural_network", "mcts", "evolutionary", "statistical",
   "information_theory", "manual", "hybrid"]

/-! ## Correlation model (src/models/Correlation.js, BaseModel) -/

/-- The `data` argument of the Correlation constructor: each schema field
either absent (`none`) or present. For the nullable fields
(`parentCorrelationId`, `lastValidated`) `none` stands for
absent-or-null. -/
structure CorrelationData where
  id : Option String := none
  sourceDatasetId : Option String := none
  targetDatasetId : Option String := none
  type : Option String := none
  parameters : Option JsObj := none
  confidence : Option ℚ := none
  validityScore : Option ℚ := none
  description : Option String := none
  status : Option String := none
  parentCorrelationId : Option String := none
  version : Option Int := none
  tags : Option (List String) := none
  metadata : Option JsObj := none
  discoveryMethod : Option String := none
  lastValidated : Option String := none
  createdAt : Option String := none
  updatedAt : Option String := none
  deriving Repr, DecidableEq

/-- A constructed Correlation instance (its data properties). -/
structure Correlation where
  id : String
  sourceDatasetId : String
  targetDatasetId : String
  type : String
  parameters : JsObj
  confidence : ℚ
  validityScore : ℚ
  description : String
  status : String
  parentCorrelationId : Option String
  version : Int
  tags : List String
  metadata : JsObj
  discoveryMethod : String
  lastValidated : Option String
  createdAt : String
  updatedAt : String
  deriving Repr, DecidableEq

/-- `new Correlation(data)`: BaseModel's constructor defaults
id/createdAt/updatedAt (with `Object.assign(this, data)` re-applying any
explicitly supplied value afterwards, net effect `getD`), then the
subclass assigns every domain field with `data.f || default`. `fresh` is
the `uuidv4()` result, `now` the `new Date().toISOString()` result. -/
def Correlation.construct (data : CorrelationData) (fresh now : String) :
    Correlation where
  id := data.id.getD fresh
  sourceDatasetId := jsOrStr data.sourceDatasetId ""
  targetDatasetId := jsOrStr data.targetDatasetId ""
  type := jsOrStr data.type ""
  parameters := data.parameters.getD []
  confidence := jsOrNum data.confidence 0
  validityScore := jsOrNum data.validityScore 0
  description := jsOrStr data.description ""
  status := jsOrStr data.status "proposed"
  parentCorrelationId := jsNullable data.parentCorrelationId
  version := jsOrInt data.version 1
  tags := data.tags.getD []
  metadata := data.metadata.getD []
  discoveryMethod := jsOrStr data.discoveryMethod ""
  lastValidated := jsNullable data.lastValidated
  createdAt := data.createdAt.getD now
  updatedAt := data.updatedAt.getD now

/-- The per-field Joi checks of the Correlation schema, in schema key
order: each pair is (the field violates its rule, the violation
message). -/
def correlationChecks (c : Correlation) : List (Bool × String) :=
  [(!isGuid c.id, "id must be a valid GUID"),
   (!isGuid c.sourceDatasetId, "sourceDatasetId must be a valid GUID"),
   (!isGuid c.targetDatasetId, "targetDatasetId must be a valid GUID"),
   (!correlationTypes.contains c.type,
     "type must be one of the allowed correlation types"),
   (decide (c.confidence < 0) || decide (1 < c.confidence),
     "confidence must be between 0 and 1"),
   (decide (c.validityScore < 0) || decide (1 < c.validityScore),
     "validityScore must be between 0 and 1"),
   (decide (2000 < c.description.length),
     "description length must be at most 2000"),
   (!correlationStatuses.contains c.status,
     "status must be one of the allowed statuses"),
   ((match c.parentCorrelationId with
     | none => false
     | some p => !isGuid p),
     "parentCorrelationId must be a valid GUID"),
   (decide (c.version < 1), "version must be at least 1"),
   (!c.tags.all (fun t => t.length ≤ 50),
     "tags items must be at most 50 characters"),
   ((!(c.discoveryMethod = ""))
       && !discoveryMethods.contains c.discoveryMethod,
     "discoveryMethod must be one of the allowed methods"),
   ((match c.lastValidated with
     | none => false
     | some d => !isIsoDate d),
     "lastValidated must be a valid ISO date"),
   (!isIsoDate c.createdAt, "createdAt must be a valid ISO date"),
   (!isIsoDate c.updatedAt, "updatedAt must be a valid ISO date")]

/-- The field-level schema violations of an instance, in schema key
order: Joi is run with `abortEarly: false`, so every failing field
contributes its message (nothing is short-circuited). -/
def Correlation.schemaViolations (c : Correlation) : List String :=
  (correlationChecks c).filterMap (fun p => if p.1 then some p.2 else none)

/-- The error a failed validation raises. -/
inductive ValidationError where
  | schema (violations : List String)
  | business (msg : String)
  deriving Repr, DecidableEq

/-- `Correlation.validate()`: `super.validate()` (Joi, collecting all
field violations, raising them together) runs first; the
correlation-specific business rules run only when it did not raise. -/
def Correlation.validateE (c : Correlation) : Except ValidationError Unit :=
  match c.schemaViolations with
  | v :: vs => Except.error (ValidationError.schema (v :: vs))
  | [] =>
    if c.sourceDatasetId = c.targetDatasetId then
      Except.error (ValidationError.business
        "Source and target datasets cannot be the same")
    else if c.confidence < 0 ∨ 1 < c.confidence then
      Except.error (ValidationError.business
        "Confidence must be between 0 and 1")
    else if c.validityScore < 0 ∨ 1 < c.validityScore then
      Except.error (ValidationError.business
        "Validity score must be between 0 and 1")
    else Except.ok ()

/-- `isValid()`: validityScore at least 0.5 and status validated. -/
def Correlation.isValidF (c : Correlation) : Bool :=
  decide ((1 : ℚ)/2 ≤ c.validityScore) && c.status = "validated"

/-- `isSignificant()`: confidence at least 0.7 and validityScore at least
0.6. -/
def Correlation.isSignificantF (c : Correlation) : Bool :=
  decide ((7 : ℚ)/10 ≤ c.confidence) && decide ((3 : ℚ)/5 ≤ c.validityScore)

/-- The object `Correlation.toJSON()` (and hence `toDatabase()`, which
delegates to it) produces: every schema field, plus the computed
`isValid` / `isSignificant` flags the subclass override appends. -/
structure CorrelationRow where
  id : String
  sourceDatasetId : String
  targetDatasetId : String
  type : String
  parameters : JsObj
  confidence : ℚ
  validityScore : ℚ
  description : String
  status : String
  parentCorrelationId : Option String
  version : Int
  tags : List String
  metadata : JsObj
  discoveryMethod : String
  lastValidated : Option String
  createdAt : String
  updatedAt : String
  isValid : Bool
  isSignificant : Bool
  deriving Repr, DecidableEq

/-- `toDatabase()` = `this.toJSON()` (dynamic dispatch reaches the
Correlation override): all schema fields (dates already canonical ISO
strings) plus the two computed flags. `parseFloat`/`parseInt` are
identities here since the fields already hold numbers. -/
def Correlation.toDatabase (c : Correlation) : CorrelationRow where
  id := c.id
  sourceDatasetId := c.sourceDatasetId
  targetDatasetId := c.targetDatasetId
  type := c.type
  parameters := c.parameters
  confidence := c.confidence
  validityScore := c.validityScore
  description := c.description
  status := c.status
  parentCorrelationId := c.parentCorrelationId
  version := c.version
  tags := c.tags
  metadata := c.metadata
  discoveryMethod := c.discoveryMethod
  lastValidated := c.lastValidated
  createdAt := c.createdAt
  updatedAt := c.updatedAt
  isValid := c.isValidF
  isSignificant := c.isSignificantF

/-- A database row read back as constructor data: every schema field is
present. -/
def CorrelationRow.toData (r : CorrelationRow) : CorrelationData where
  id := some r.id
  sourceDatasetId := some r.sourceDatasetId
  targetDatasetId := some r.targetDatasetId
  type := some r.type
  parameters := some r.parameters
  confidence := some r.confidence
  validityScore := some r.validityScore
  description := some r.description
  status := some r.status
  parentCorrelationId := r.parentCorrelationId
  version := some r.version
  tags := some r.tags
  metadata := some r.metadata
  discoveryMethod := some r.discoveryMethod
  lastValidated := r.lastValidated
  createdAt := some r.createdAt
  updatedAt := some r.updatedAt

/-- `Correlation.fromDatabase(row)` = `new Correlation(row)`. The row
carries every schema field, so the lazily-evaluated `uuidv4()` /
`new Date()` defaults are never consulted; they are passed as `""`. -/
def Correlation.fromDatabaseRow (r : CorrelationRow) : Correlation :=
  Correlation.construct r.toData "" ""

/-- Re-applying the string defaulting to an already-defaulted value is
the identity. -/
theorem jsOrStr_idem (o : Option String) (d : String) :
    jsOrStr (some (jsOrStr o d)) d = jsOrStr o d := by
  cases o <;> simp only [jsOrStr] <;> split <;> simp_all

/-- Re-applying the numeric defaulting to an already-defaulted value is
the identity. -/
theorem jsOrNum_idem (o : Option ℚ) (d : ℚ) :
    jsOrNum (some (jsOrNum o d)) d = jsOrNum o d := by
  cases o <;> simp only [jsOrNum] <;> split <;> simp_all

/-- Re-applying the integer defaulting to an already-defaulted value is
the identity. -/
theorem jsOrInt_idem (o : Option Int) (d : Int) :
    jsOrInt (some (jsOrInt o d)) d = jsOrInt o d := by
  cases o <;> simp only [jsOrInt] <;> split <;> simp_all

/-- The null-collapsing defaulting is idempotent. -/
theorem jsNullable_idem (o : Option String) :
    jsNullable (jsNullable o) = jsNullable o := by
  cases o <;> simp only [jsNullable] <;> split <;> simp_all

/-- ToDatabase/FromDatabase round-trip on constructed instances: reading
back the row reproduces every schema field (the subclass defaulting only
replaces values that are already the defaults). -/
theorem Correlation.fromDatabase_toDatabase (data : CorrelationData)
    (fresh now : String) :
    Correlation.fromDatabaseRow
      (Correlation.toDatabase (Correlation.construct data fresh now))
      = Correlation.construct data fresh now := by
  simp only [Correlation.fromDatabaseRow, Correlation.toDatabase,
    CorrelationRow.toData, Correlation.construct, Option.getD_some,
    jsOrStr_idem, jsOrNum_idem, jsOrInt_idem, jsNullable_idem]

/-! ## Dataset model (src/models/Dataset.js) -/

/-- The `data` argument of the Dataset constructor. -/
structure DatasetData where
  id : Option String := none
  name : Option String := none
  description : Option String := none
  schemaObj : Option JsObj := none
  type : Option String := none
  source : Option String := none
  format : Option String := none
  size : Option Int := none
  recordCount : Option Int := none
  metadata : Option JsObj := none
  status : Option String := none
  lastAccessed : Option String := none
  tags : Option (List String) := none
  visibility : Option String := none
  ownerId : Option String := none
  createdAt : Option String := none
  updatedAt : Option String := none
  deriving Repr, DecidableEq

/-- A constructed Dataset instance (the JS `schema` field is called
`schemaObj` here to avoid clashing with the static schema). -/
structure Dataset where
  id : String
  name : String
  description : String
  schemaObj : JsObj
  type : String
  source : String
  format : String
  size : Int
  recordCount : Int
  metadata : JsObj
  status : String
  lastAccessed : String
  tags : List String
  visibility : String
  ownerId : Option String
  createdAt : String
  updatedAt : String
  deriving Repr, DecidableEq

/-- `new Dataset(data)`, with the same constructor conventions as
`Correlation.construct`. `lastAccessed` defaults to the current time. -/
def Dataset.construct (data : DatasetData) (fresh now : String) :
    Dataset where
  id := data.id.getD fresh
  name := jsOrStr data.name ""
  description := jsOrStr data.description ""
  schemaObj := data.schemaObj.getD []
  type := jsOrStr data.type "structured"
  source := jsOrStr data.source ""
  format := jsOrStr data.format "json"
  size := jsOrInt data.size 0
  recordCount := jsOrInt data.recordCount 0
  metadata := data.metadata.getD []
  status := jsOrStr data.status "active"
  lastAccessed := jsOrStr data.lastAccessed now
  tags := data.tags.getD []
  visibility := jsOrStr data.visibility "private"
  ownerId := jsNullable data.ownerId
  createdAt := data.createdAt.getD now
  updatedAt := data.updatedAt.getD now

/-- `Dataset.incrementAccessCount()`: sets `lastAccessed` to the current
time and increments `metadata.accessCount` (initialising a falsy, i.e.
absent-or-zero, counter to 0 first). It does not touch `updatedAt`. -/
def Dataset.incrementAccessCount (d : Dataset) (now : String) : Dataset :=
  let base := (d.metadata.getNum "accessCount").getD 0
  { d with
      lastAccessed := now
      metadata := d.metadata.setNum "accessCount" (base + 1) }

/-- `Dataset.addTag(tag)`: appends the tag and refreshes `updatedAt`,
but only when the tag is not yet present. -/
def Dataset.addTag (d : Dataset) (tag now : String) : Dataset :=
  if d.tags.contains tag then d
  else { d with tags := d.tags ++ [tag], updatedAt := now }

/-- `Dataset.removeTag(tag)`: filters the tag out and refreshes
`updatedAt` unconditionally. -/
def Dataset.removeTag (d : Dataset) (tag now : String) : Dataset :=
  { d with tags := d.tags.filter (fun t => t ≠ tag), updatedAt := now }

/-- `Correlation.addTag(tag)` (same shape as Dataset's). -/
def Correlation.addTag (c : Correlation) (tag now : String) : Correlation :=
  if c.tags.contains tag then c
  else { c with tags := c.tags ++ [tag], updatedAt := now }

/-- `Correlation.removeTag(tag)`. -/
def Correlation.removeTag (c : Correlation) (tag now : String) : Correlation :=
  { c with tags := c.tags.filter (fun t => t ≠ tag), updatedAt := now }

/-- `BaseModel.update(data)` for Correlation: every schema key present in
`data` overwrites the field (even with a falsy value: the loop checks
only `!== undefined`), then `updatedAt` is set to the current time. -/
def Correlation.updateM (c : Correlation) (data : CorrelationData)
    (now : String) : Correlation where
  id := data.id.getD c.id
  sourceDatasetId := data.sourceDatasetId.getD c.sourceDatasetId
  targetDatasetId := data.targetDatasetId.getD c.targetDatasetId
  type := data.type.getD c.type
  parameters := data.parameters.getD c.parameters
  confidence := data.confidence.getD c.confidence
  validityScore := data.validityScore.getD c.validityScore
  description := data.description.getD c.description
  status := data.status.getD c.status
  parentCorrelationId := data.parentCorrelationId.orElse
    (fun _ => c.parentCorrelationId)
  version := data.version.getD c.version
  tags := data.tags.getD c.tags
  metadata := data.metadata.getD c.metadata
  discoveryMethod := data.discoveryMethod.getD c.discoveryMethod
  lastValidated := data.lastValidated.orElse (fun _ => c.lastValidated)
  createdAt := data.createdAt.getD c.createdAt
  updatedAt := now

/-! ## Generic repository query building (BaseRepository) -/

/-- A value in the declarative `where` bag of `findAll` / `count`:
the source branches on `Array.isArray(value)` and
`value instanceof Date`, all other values being bound directly. -/
inductive JsVal where
  | str (s : String)
  | num (q : ℚ)
  | arr (vs : List String)
  | date (iso : String)
  deriving Repr, DecidableEq

/-- Whether the `Array.isArray` branch is taken. -/
def JsVal.isArr : JsVal → Bool
  | JsVal.arr _ => true
  | _ => false

/-- The parameter strings a value contributes (`params.push(...)`;
non-string values stringified for the embedding). Note the array case
spreads all its elements into the parameter list. -/
def JsVal.pushed : JsVal → List String
  | JsVal.str s => [s]
  | JsVal.num q => [toString q]
  | JsVal.arr vs => vs
  | JsVal.date iso => [iso]

/-- `findAll`'s WHERE-clause builder: walks the `where` bag with a
running `paramIndex`, returning the condition texts, the pushed
parameters, and the next parameter index. Each entry, array or not,
advances `paramIndex` by exactly one, while the array entry pushes all
its elements. -/
def buildWhere : List (String × JsVal) → Nat →
    List String × List String × Nat
  | [], i => ([], [], i)
  | (k, v) :: rest, i =>
    let cond :=
      if v.isArr then
        k ++ " = ANY($" ++ toString i ++ ")::uuid[]"
      else
        k ++ " = $" ++ toString i
    let (cs, ps, j) := buildWhere rest (i + 1)
    (cond :: cs, v.pushed ++ ps, j)

/-- The options bag of `findAll`, with the source's defaults. -/
structure FindAllOptions where
  limit : Int := 50
  offset : Int := 0
  orderBy : String := "createdAt"
  order : String := "DESC"
  whereBag : List (String × JsVal) := []
  deriving Repr

/-- `BaseRepository.findAll`'s generated query text and bound parameter
list: WHERE conditions ANDed, `orderBy`/`order` interpolated, LIMIT and
OFFSET appended as the two final positional parameters. -/
def findAllQuery (table : String) (o : FindAllOptions) :
    String × List String :=
  let r := buildWhere o.whereBag 1
  let base := "SELECT * FROM " ++ table
  let q1 :=
    if r.1 = [] then base
    else base ++ " WHERE " ++ String.intercalate " AND " r.1
  let q2 := q1 ++ " ORDER BY " ++ o.orderBy ++ " " ++ o.order
  let q3 := q2 ++ " LIMIT $" ++ toString r.2.2 ++ " OFFSET $"
    ++ toString (r.2.2 + 1)
  (q3, r.2.1 ++ [toString o.limit, toString o.offset])

/-- The largest placeholder index the findAll query text uses
(`$1 .. $max`): the OFFSET placeholder. -/
def findAllMaxPlaceholder (o : FindAllOptions) : Nat :=
  (buildWhere o.whereBag 1).2.2 + 1

/-- `BaseRepository.count`'s generated query text and parameters (same
WHERE handling as findAll, no Date branch, no LIMIT/OFFSET). -/
def countQuery (table : String) (whereBag : List (String × JsVal)) :
    String × List String :=
  let r := buildWhere whereBag 1
  let base := "SELECT COUNT(*) as count FROM " ++ table
  let q :=
    if r.1 = [] then base
    else base ++ " WHERE " ++ String.intercalate " AND " r.1
  (q, r.2.1)

/-- The largest placeholder index the count query text uses. -/
def countMaxPlaceholder (whereBag : List (String × JsVal)) : Nat :=
  (buildWhere whereBag 1).2.2 - 1

/-- `BaseRepository.search`'s generated query text and parameters: the
fields are interpolated into ILIKE conditions OR-ed together, the term is
bound once as `$1` (wrapped in percent signs) and the limit as `$2`;
`fields[0]` on an empty list is JS `undefined`, which a template literal
renders as the text "undefined". -/
def searchQuery (table term : String) (fields : List String)
    (limit : Int) : String × List String :=
  let conds := String.intercalate " OR "
    (fields.map (fun f => f ++ "::text ILIKE $1"))
  let first := fields.headD "undefined"
  let q := "SELECT * FROM " ++ table ++ " WHERE " ++ conds
    ++ " ORDER BY similarity(" ++ first ++ "::text, $1) DESC LIMIT $2"
  (q, ["%" ++ term ++ "%", toString limit])

/-- `DatasetRepository.findRecentlyAccessed(days)`: the `days` argument
is interpolated directly into the INTERVAL literal of the query text
(no parameters at all). -/
def findRecentlyAccessedQuery (days : Int) : String :=
  "SELECT * FROM datasets WHERE last_accessed >= NOW() - INTERVAL '"
    ++ toString days ++ " days' ORDER BY last_accessed DESC"

/-! ## Create / CreateMany (BaseRepository instantiated at Correlation) -/

/-- The keys of the Correlation Joi schema, in declaration order. After
construction every one of these properties is defined on the instance,
so `Object.keys(toJSON())` lists exactly them (plus the computed flags
the Correlation override appends). -/
def correlationSchemaKeys : List String :=
  ["id", "sourceDatasetId", "targetDatasetId", "type", "parameters",
   "confidence", "validityScore", "description", "status",
   "parentCorrelationId", "version", "tags", "metadata",
   "discoveryMethod", "lastValidated", "createdAt", "updatedAt"]

/-- `Object.keys(instance.toDatabase())` for a Correlation: the schema
keys followed by the computed `isValid` / `isSignificant` keys that
`Correlation.toJSON` spreads in after them. -/
def correlationToDatabaseKeys : List String :=
  correlationSchemaKeys ++ ["isValid", "isSignificant"]

/-- The column list `create` / `createMany` build:
`Object.keys(instance.toDatabase()).filter(key => key !== 'id')`. -/
def correlationCreateColumns : List String :=
  correlationToDatabaseKeys.filter (fun k => k ≠ "id")

/-- A value bound as a SQL parameter by `columns.map(col =>
instance[col])`. `jsFunction` records that the property lookup found a
prototype method (e.g. `instance['isValid']`), not a data value;
`undef` records a lookup that found nothing. -/
inductive SqlParam where
  | str (s : String)
  | num (q : ℚ)
  | int (n : Int)
  | nullV
  | list (vs : List String)
  | obj (o : JsObj)
  | jsFunction (name : String)
  | undef
  deriving Repr, DecidableEq

/-- `instance[col]` on a constructed Correlation: data properties yield
their values; `isValid` / `isSignificant` yield the prototype methods. -/
def Correlation.getProp (c : Correlation) : String → SqlParam
  | "id" => SqlParam.str c.id
  | "sourceDatasetId" => SqlParam.str c.sourceDatasetId
  | "targetDatasetId" => SqlParam.str c.targetDatasetId
  | "type" => SqlParam.str c.type
  | "parameters" => SqlParam.obj c.parameters
  | "confidence" => SqlParam.num c.confidence
  | "validityScore" => SqlParam.num c.validityScore
  | "description" => SqlParam.str c.description
  | "status" => SqlParam.str c.status
  | "parentCorrelationId" =>
      match c.parentCorrelationId with
      | none => SqlParam.nullV
      | some p => SqlParam.str p
  | "version" => SqlParam.int c.version
  | "tags" => SqlParam.list c.tags
  | "metadata" => SqlParam.obj c.metadata
  | "discoveryMethod" => SqlParam.str c.discoveryMethod
  | "lastValidated" =>
      match c.lastValidated with
      | none => SqlParam.nullV
      | some d => SqlParam.str d
  | "createdAt" => SqlParam.str c.createdAt
  | "updatedAt" => SqlParam.str c.updatedAt
  | "isValid" => SqlParam.jsFunction "isValid"
  | "isSignificant" => SqlParam.jsFunction "isSignificant"
  | _ => SqlParam.undef

/-- The INSERT statement `create` builds (columns joined, one positional
placeholder per column). -/
def correlationInsertQuery : String :=
  "INSERT INTO correlations ("
    ++ String.intercalate ", " correlationCreateColumns
    ++ ") VALUES ("
    ++ String.intercalate ", "
        ((List.range correlationCreateColumns.length).map
          (fun i => "$" ++ toString (i + 1)))
    ++ ") RETURNING *"

/-- The parameters `create` binds: `columns.map(col => instance[col])`. -/
def correlationInsertParams (c : Correlation) : List SqlParam :=
  correlationCreateColumns.map c.getProp

/-- The log of statements issued to the pool. -/
abbrev DbLog := List (String × List SqlParam)

/-- An error escaping a repository operation. -/
inductive RepoErr where
  | validation (e : ValidationError)
  | typeErr (msg : String)
  deriving Repr, DecidableEq

/-- `BaseRepository.create(data)` for the Correlation model: construct,
validate (a validation failure propagates before any query is issued),
then issue the INSERT and return the RETURNING row mapped back through
`fromDatabase`. `exec` abstracts `pool.query`; the returned log extends
the given one with every statement issued. -/
def correlationCreate (data : CorrelationData) (fresh now : String)
    (exec : String → List SqlParam → CorrelationRow) (log : DbLog) :
    Except RepoErr Correlation × DbLog :=
  let inst := Correlation.construct data fresh now
  match inst.validateE with
  | Except.error e => (Except.error (RepoErr.validation e), log)
  | Except.ok _ =>
    let params := correlationInsertParams inst
    let row := exec correlationInsertQuery params
    (Except.ok (Correlation.fromDatabaseRow row),
      log ++ [(correlationInsertQuery, params)])

/-- The instances `createMany` constructs from its input array (the i-th
construction consumes the i-th generated uuid/timestamp pair). -/
def correlationInstances (dataArr : List CorrelationData)
    (gen : Nat → String × String) : List Correlation :=
  dataArr.mapIdx (fun i d => Correlation.construct d (gen i).1 (gen i).2)

/-- `instances.forEach(instance => instance.validate())`: the first
validation failure, if any, aborts the whole call. -/
def firstValidationError : List Correlation → Option ValidationError
  | [] => none
  | c :: cs =>
    match c.validateE with
    | Except.error e => some e
    | Except.ok _ => firstValidationError cs

/-- The multi-row INSERT statement `createMany` builds for `n` rows. -/
def correlationInsertManyQuery (n : Nat) : String :=
  let cols := correlationCreateColumns.length
  "INSERT INTO correlations ("
    ++ String.intercalate ", " correlationCreateColumns
    ++ ") VALUES "
    ++ String.intercalate ", "
        ((List.range n).map (fun i =>
          "(" ++ String.intercalate ", "
            ((List.range cols).map (fun j =>
              "$" ++ toString (i * cols + j + 1)))
            ++ ")"))
    ++ " RETURNING *"

/-- `BaseRepository.createMany(dataArray)` for the Correlation model:
construct every item, validate them all (the first failure aborts the
whole batch before any query), then read the column list off
`instances[0]` — which on an empty batch dereferences `undefined` and
throws a TypeError before any SQL — and issue one multi-row INSERT. -/
def correlationCreateMany (dataArr : List CorrelationData)
    (gen : Nat → String × String)
    (exec : String → List SqlParam → List CorrelationRow) (log : DbLog) :
    Except RepoErr (List Correlation) × DbLog :=
  let insts := correlationInstances dataArr gen
  match firstValidationError insts with
  | some e => (Except.error (RepoErr.validation e), log)
  | none =>
    match insts with
    | [] =>
      (Except.error (RepoErr.typeErr
        "Cannot read properties of undefined (reading toDatabase)"), log)
    | _ :: _ =>
      let query := correlationInsertManyQuery insts.length
      let params := insts.flatMap correlationInsertParams
      (Except.ok ((exec query params).map Correlation.fromDatabaseRow),
        log ++ [(query, params)])

/-! ## DatabaseManager.transaction -/

/-- `DatabaseManager.transaction(callback)`: after the connectivity
guard, a client is acquired; BEGIN is issued, the callback runs, COMMIT
on normal return (returning the callback's result) or ROLLBACK on a
raised error (re-raising it), and the client is released in the
`finally` block either way. The callback is modelled by its outcome
`cbResult` and the statements `cbStmts` it issued through the client;
the second component of the result is the full statement trace on the
acquired client, the third how often it was released. -/
def transaction {α : Type} (connected : Bool)
    (cbResult : Except String α) (cbStmts : List String) :
    Except String α × List String × Nat :=
  if connected then
    match cbResult with
    | Except.ok a => (Except.ok a, "BEGIN" :: cbStmts ++ ["COMMIT"], 1)
    | Except.error e =>
      (Except.error e, "BEGIN" :: cbStmts ++ ["ROLLBACK"], 1)
  else
    (Except.error "PostgreSQL not connected", [], 0)

/-! ## Shared helper lemmas -/

/-- Defaulting a present string against the empty-string default is the
identity. -/
theorem jsOrStr_some_empty (s : String) : jsOrStr (some s) "" = s := by
  unfold jsOrStr
  split <;> simp_all

/-- Defaulting an absent string yields the default. -/
theorem jsOrStr_none (d : String) : jsOrStr none d = d := rfl

/-- Any check that fails contributes its message to the collected
violation list. -/
theorem mem_schemaViolations {c : Correlation} {b : Bool} {m : String}
    (hmem : (b, m) ∈ correlationChecks c) (hb : b = true) :
    m ∈ c.schemaViolations := by
  subst hb
  unfold Correlation.schemaViolations
  exact List.mem_filterMap.mpr ⟨(true, m), hmem, rfl⟩

/-- If some instance in the batch fails validation, the forEach
validation pass surfaces an error. -/
theorem firstValidationError_some {l : List Correlation}
    (h : ∃ c ∈ l, ∃ e, c.validateE = Except.error e) :
    ∃ e, firstValidationError l = some e := by
  induction l with
  | nil => simp at h
  | cons c cs ih =>
    cases hv : c.validateE with
    | error e => exact ⟨e, by simp [firstValidationError, hv]⟩
    | ok u =>
      cases u
      rcases h with ⟨c2, hmem, e2, he⟩
      rcases List.mem_cons.mp hmem with h1 | h1
      · subst h1
        rw [hv] at he
        exact absurd he (by simp)
      · rcases ih ⟨c2, h1, e2, he⟩ with ⟨e, he3⟩
        exact ⟨e, by simp [firstValidationError, hv, he3]⟩

/-- The shape of a `where` bag: its keys together with which of them take
the `Array.isArray` branch. The generated condition texts (and the final
parameter index) depend only on this shape, never on the values. -/
def whereShape (bag : List (String × JsVal)) : List (String × Bool) :=
  bag.map (fun p => (p.1, p.2.isArr))

/-- WHERE bags of equal shape produce identical condition texts and the
same final parameter index. -/
theorem buildWhere_shape : ∀ (b1 b2 : List (String × JsVal)) (i : Nat),
    whereShape b1 = whereShape b2 →
    (buildWhere b1 i).1 = (buildWhere b2 i).1
    ∧ (buildWhere b1 i).2.2 = (buildWhere b2 i).2.2 := by
  intro b1
  induction b1 with
  | nil =>
    intro b2 i h
    cases b2 with
    | nil => exact ⟨rfl, rfl⟩
    | cons hd2 tl2 => simp [whereShape] at h
  | cons hd tl ih =>
    intro b2 i h
    cases b2 with
    | nil => simp [whereShape] at h
    | cons hd2 tl2 =>
      simp only [whereShape, List.map_cons, List.cons.injEq,
        Prod.mk.injEq] at h
      obtain ⟨⟨hk, ha⟩, htl⟩ := h
      have hrec := ih tl2 (i + 1) htl
      simp [buildWhere, hk, ha, hrec.1, hrec.2]

/-! ## Claim theorems -/

/-- C1: an array-valued `where` entry pushes all its values as
parameters but allocates only one placeholder, so the query text uses
three placeholders while four parameters are bound, and the value
occupying position 2 — the position the LIMIT placeholder refers to — is
the second array element rather than the limit. The same mismatch occurs
in `count`. -/
theorem claim_c1_array_where_misaligns_params :
    (findAllQuery "correlations"
        { whereBag := [("id", JsVal.arr ["u1", "u2"])] }).1
      = "SELECT * FROM correlations WHERE id = ANY($1)::uuid[] ORDER BY createdAt DESC LIMIT $2 OFFSET $3"
    ∧ (findAllQuery "correlations"
        { whereBag := [("id", JsVal.arr ["u1", "u2"])] }).2
      = ["u1", "u2", "50", "0"]
    ∧ findAllMaxPlaceholder { whereBag := [("id", JsVal.arr ["u1", "u2"])] }
      = 3
    ∧ ((findAllQuery "correlations"
        { whereBag := [("id", JsVal.arr ["u1", "u2"])] }).2).length = 4
    ∧ ((findAllQuery "correlations"
        { whereBag := [("id", JsVal.arr ["u1", "u2"])] }).2).get? 1
      = some "u2"
    ∧ (countQuery "correlations" [("id", JsVal.arr ["u1", "u2"])]).2.length
      = 2
    ∧ countMaxPlaceholder [("id", JsVal.arr ["u1", "u2"])] = 1 := by
  exact ⟨rfl, rfl, rfl, rfl, rfl, rfl, rfl⟩

/-- C2: the column list `create` builds for a Correlation includes the
computed `isValid` and `isSignificant` keys (because `toDatabase`
delegates to the overridden `toJSON`, which appends them), so it is not
the schema keys minus the identity column; the parameters bound for
those two columns are the prototype methods, not data values. -/
theorem claim_c2_computed_fields_in_create_columns :
    "isValid" ∈ correlationCreateColumns
    ∧ "isSignificant" ∈ correlationCreateColumns
    ∧ correlationCreateColumns
        ≠ correlationSchemaKeys.filter (fun k => k ≠ "id")
    ∧ ∀ c : Correlation,
        c.getProp "isValid" = SqlParam.jsFunction "isValid"
        ∧ c.getProp "isSignificant" = SqlParam.jsFunction "isSignificant" := by
  exact ⟨by decide, by decide, by decide, fun c => ⟨rfl, rfl⟩⟩

/-- A concrete dataset constructed at time t0, used to evaluate the
domain mutators. -/
def c3Dataset : Dataset :=
  Dataset.construct {} "33333333-3333-3333-3333-333333333333"
    "2024-01-01T00:00:00.000Z"

/-- A concrete correlation constructed at time t0. -/
def c3Correlation : Correlation :=
  Correlation.construct {} "33333333-3333-3333-3333-333333333333"
    "2024-01-01T00:00:00.000Z"

/-- C3: `Dataset.incrementAccessCount` mutates `lastAccessed` and
`metadata.accessCount` but leaves `updatedAt` unchanged, unlike
`BaseModel.update` and the tag mutators, which do refresh it. -/
theorem claim_c3_incrementAccessCount_keeps_updatedAt :
    (c3Dataset.incrementAccessCount "2025-06-15T10:00:00.000Z").lastAccessed
      = "2025-06-15T10:00:00.000Z"
    ∧ ((c3Dataset.incrementAccessCount
          "2025-06-15T10:00:00.000Z").metadata.getNum "accessCount")
      = some 1
    ∧ (c3Dataset.incrementAccessCount "2025-06-15T10:00:00.000Z").updatedAt
      = "2024-01-01T00:00:00.000Z"
    ∧ (c3Dataset.incrementAccessCount "2025-06-15T10:00:00.000Z").updatedAt
      ≠ "2025-06-15T10:00:00.000Z"
    ∧ (c3Dataset.addTag "fresh-tag" "2025-06-15T10:00:00.000Z").updatedAt
      = "2025-06-15T10:00:00.000Z"
    ∧ (c3Dataset.removeTag "x" "2025-06-15T10:00:00.000Z").updatedAt
      = "2025-06-15T10:00:00.000Z"
    ∧ (c3Correlation.addTag "fresh-tag" "2025-06-15T10:00:00.000Z").updatedAt
      = "2025-06-15T10:00:00.000Z"
    ∧ (c3Correlation.updateM {} "2025-06-15T10:00:00.000Z").updatedAt
      = "2025-06-15T10:00:00.000Z" := by
  exact ⟨rfl, rfl, rfl, by decide, rfl, rfl, rfl, rfl⟩

/-- C10: `createMany` on the empty array throws (the `instances[0]`
dereference of an empty list) before any SQL statement is issued: the
result is the TypeError and the statement log is unchanged. -/
theorem claim_c10_createMany_empty_throws (gen : Nat → String × String)
    (exec : String → List SqlParam → List CorrelationRow) (log : DbLog) :
    correlationCreateMany [] gen exec log
      = (Except.error (RepoErr.typeErr
          "Cannot read properties of undefined (reading toDatabase)"), log) :=
  rfl

/-- A concrete valid GUID. -/
def guidA : String := "11111111-1111-1111-1111-111111111111"

/-- A second concrete valid GUID. -/
def guidB : String := "22222222-2222-2222-2222-222222222222"

/-- A third concrete valid GUID (used as a generated uuid). -/
def guidC : String := "33333333-3333-3333-3333-333333333333"

/-- A concrete canonical ISO timestamp. -/
def isoT0 : String := "2024-01-01T00:00:00.000Z"

/-- A fixed row an abstract pool might return. -/
def demoRow : CorrelationRow :=
  Correlation.toDatabase (Correlation.construct {} guidC isoT0)

/-- A constant single-row exec oracle. -/
def constExec : String → List SqlParam → CorrelationRow :=
  fun _ _ => demoRow

/-- A constant multi-row exec oracle. -/
def constExecMany : String → List SqlParam → List CorrelationRow :=
  fun _ _ => []

/-- The validation error raised for an all-defaults Correlation: the
required GUID ids are empty and the required type is empty. -/
def c4Error : ValidationError :=
  ValidationError.schema
    ["sourceDatasetId must be a valid GUID",
     "targetDatasetId must be a valid GUID",
     "type must be one of the allowed correlation types"]

/-- C4: when construction-plus-validation of the input fails, `create`
returns the validation error with the statement log unchanged (no SQL
issued); when any single item of a batch fails validation, `createMany`
rejects the whole batch with a validation error, likewise before any
SQL. -/
theorem claim_c4_validation_aborts_before_io
    (d : CorrelationData) (f n : String) (e : ValidationError)
    (h : (Correlation.construct d f n).validateE = Except.error e)
    (ds : List CorrelationData) (g : Nat → String × String)
    (h2 : ∃ c ∈ correlationInstances ds g,
      ∃ e2, c.validateE = Except.error e2) :
    (∀ (exec : String → List SqlParam → CorrelationRow) (log : DbLog),
        correlationCreate d f n exec log
          = (Except.error (RepoErr.validation e), log))
    ∧ (∀ (exec : String → List SqlParam → List CorrelationRow) (log : DbLog),
        ∃ e3, correlationCreateMany ds g exec log
          = (Except.error (RepoErr.validation e3), log)) := by
  constructor
  · intro exec log
    simp [correlationCreate, h]
  · intro exec log
    obtain ⟨e3, h3⟩ := firstValidationError_some h2
    exact ⟨e3, by simp [correlationCreateMany, h3]⟩

/-- Witness for C4: the all-defaults input fails validation, and both
`create` and a one-element `createMany` batch reject it with the log
untouched. -/
theorem claim_c4_witness :
    correlationCreate {} guidA isoT0 constExec []
      = (Except.error (RepoErr.validation c4Error), [])
    ∧ ∃ e3, correlationCreateMany [{}] (fun _ => (guidA, isoT0))
        constExecMany []
      = (Except.error (RepoErr.validation e3), []) := by
  have h := claim_c4_validation_aborts_before_io {} guidA isoT0 c4Error rfl
    [{}] (fun _ => (guidA, isoT0))
    ⟨Correlation.construct {} guidA isoT0,
      by
        have hinst : correlationInstances [{}] (fun _ => (guidA, isoT0))
            = [Correlation.construct {} guidA isoT0] := rfl
        rw [hinst]
        exact List.mem_singleton.mpr rfl,
      c4Error, rfl⟩
  exact ⟨h.1 constExec [], h.2 constExecMany []⟩

/-- The scenario input of the end-to-end claim, with the two dataset ids
as parameters. -/
def c5Data (g1 g2 : String) : CorrelationData :=
  { sourceDatasetId := some g1, targetDatasetId := some g2,
    type := some "one_to_one" }

/-- The scenario input with the literal ids "A" and "B". -/
def c5BadData : CorrelationData := c5Data "A" "B"

/-- C5 counterexample: with the literal ids "A" and "B" (not GUIDs),
`create` raises a schema validation error instead of succeeding, and no
SQL is issued. -/
theorem claim_c5_counterexample :
    correlationCreate c5BadData guidC isoT0 constExec []
      = (Except.error (RepoErr.validation (ValidationError.schema
          ["sourceDatasetId must be a valid GUID",
           "targetDatasetId must be a valid GUID"])), []) := rfl

/-- Constructing from the scenario data yields the literal instance with
every default filled in. -/
theorem c5_construct_eq (g1 g2 f n : String) :
    Correlation.construct (c5Data g1 g2) f n
      = ⟨f, g1, g2, "one_to_one", [], 0, 0, "", "proposed", none, 1, [], [],
         "", none, n, n⟩ := by
  simp only [c5Data, Correlation.construct, jsOrStr_some_empty, jsOrStr_none,
    jsOrNum, jsOrInt, jsNullable, Option.getD_none]

/-- With GUID ids and a canonical timestamp, the scenario instance has no
schema violations. -/
theorem c5_schemaViolations_nil (g1 g2 f n : String)
    (h1 : isGuid g1 = true) (h2 : isGuid g2 = true)
    (h3 : isGuid f = true) (h4 : isIsoDate n = true) :
    (Correlation.construct (c5Data g1 g2) f n).schemaViolations = [] := by
  rw [c5_construct_eq]
  simp [Correlation.schemaViolations, correlationChecks, h1, h2, h3, h4]
  decide

/-- With GUID ids, a canonical timestamp and distinct source/target, the
scenario instance validates cleanly. -/
theorem c5_validateE_ok (g1 g2 f n : String)
    (h1 : isGuid g1 = true) (h2 : isGuid g2 = true)
    (h3 : isGuid f = true) (h4 : isIsoDate n = true) (h5 : g1 ≠ g2) :
    (Correlation.construct (c5Data g1 g2) f n).validateE = Except.ok () := by
  have hv := c5_schemaViolations_nil g1 g2 f n h1 h2 h3 h4
  rw [c5_construct_eq] at hv ⊢
  simp [Correlation.validateE, hv, h5]
  norm_num

/-- C5 amended: with valid (distinct) GUID dataset ids in place of the
literals "A"/"B", the constructed entity has confidence 0, status
proposed and version 1, validates with no errors, and `create` issues
the INSERT and returns the entity reconstructed from the row the
database echoes back. -/
theorem claim_c5_amended (g1 g2 f n : String)
    (h1 : isGuid g1 = true) (h2 : isGuid g2 = true)
    (h3 : isGuid f = true) (h4 : isIsoDate n = true) (h5 : g1 ≠ g2) :
    (Correlation.construct (c5Data g1 g2) f n).confidence = 0
    ∧ (Correlation.construct (c5Data g1 g2) f n).status = "proposed"
    ∧ (Correlation.construct (c5Data g1 g2) f n).version = 1
    ∧ (Correlation.construct (c5Data g1 g2) f n).validateE = Except.ok ()
    ∧ ∀ log : DbLog,
        correlationCreate (c5Data g1 g2) f n
          (fun _ _ => (Correlation.construct (c5Data g1 g2) f n).toDatabase)
          log
        = (Except.ok (Correlation.construct (c5Data g1 g2) f n),
           log ++ [(correlationInsertQuery,
             correlationInsertParams
               (Correlation.construct (c5Data g1 g2) f n))]) := by
  have hok := c5_validateE_ok g1 g2 f n h1 h2 h3 h4 h5
  refine ⟨by rw [c5_construct_eq], by rw [c5_construct_eq],
    by rw [c5_construct_eq], hok, ?_⟩
  intro log
  simp [correlationCreate, hok, Correlation.fromDatabase_toDatabase]

/-- Witness for C5's amended claim at concrete GUIDs and timestamp. -/
theorem claim_c5_witness :
    (Correlation.construct (c5Data guidA guidB) guidC isoT0).confidence = 0
    ∧ (Correlation.construct (c5Data guidA guidB) guidC isoT0).status
      = "proposed"
    ∧ (Correlation.construct (c5Data guidA guidB) guidC isoT0).version = 1
    ∧ (Correlation.construct (c5Data guidA guidB) guidC isoT0).validateE
      = Except.ok ()
    ∧ correlationCreate (c5Data guidA guidB) guidC isoT0
        (fun _ _ =>
          (Correlation.construct (c5Data guidA guidB) guidC isoT0).toDatabase)
        []
      = (Except.ok (Correlation.construct (c5Data guidA guidB) guidC isoT0),
         [(correlationInsertQuery,
           correlationInsertParams
             (Correlation.construct (c5Data guidA guidB) guidC isoT0))]) := by
  have h := claim_c5_amended guidA guidB guidC isoT0 (by decide) (by decide)
    (by decide) (by decide) (by decide)
  exact ⟨h.1, h.2.1, h.2.2.1, h.2.2.2.1, h.2.2.2.2 []⟩

/-- C6: each violated field-level rule contributes its message to the
collected violation list (nothing is short-circuited); when any schema
violation exists, validation raises the full collected list (the
business rules are not consulted); the business rules run only once
schema validation has succeeded. -/
theorem claim_c6_collects_all_then_business_rules :
    (∀ c : Correlation, c.confidence < 0 ∨ 1 < c.confidence →
        "confidence must be between 0 and 1" ∈ c.schemaViolations)
    ∧ (∀ c : Correlation, correlationTypes.contains c.type = false →
        "type must be one of the allowed correlation types"
          ∈ c.schemaViolations)
    ∧ (∀ c : Correlation, isGuid c.sourceDatasetId = false →
        "sourceDatasetId must be a valid GUID" ∈ c.schemaViolations)
    ∧ (∀ c : Correlation, c.schemaViolations ≠ [] →
        c.validateE = Except.error (ValidationError.schema
          c.schemaViolations))
    ∧ (∀ c : Correlation, c.schemaViolations = [] →
        c.sourceDatasetId = c.targetDatasetId →
        c.validateE = Except.error (ValidationError.business
          "Source and target datasets cannot be the same")) := by
  refine ⟨?_, ?_, ?_, ?_, ?_⟩
  · intro c h
    refine mem_schemaViolations
      (b := decide (c.confidence < 0) || decide (1 < c.confidence)) ?_ ?_
    · simp [correlationChecks]
    · rcases h with h | h <;> simp [h]
  · intro c h
    refine mem_schemaViolations (b := !correlationTypes.contains c.type) ?_ ?_
    · simp [correlationChecks]
    · rw [h]
      rfl
  · intro c h
    refine mem_schemaViolations (b := !isGuid c.sourceDatasetId) ?_ ?_
    · simp [correlationChecks]
    · simp [h]
  · intro c h
    cases hv : c.schemaViolations with
    | nil => exact absurd hv h
    | cons v vs => simp [Correlation.validateE, hv]
  · intro c h1 h2
    simp [Correlation.validateE, h1, h2]

/-- A concrete instance violating two schema rules at the same time
(type not in the enum, confidence above 1). -/
def c6Bad : Correlation :=
  Correlation.construct
    { sourceDatasetId := some guidA, targetDatasetId := some guidB,
      type := some "bogus", confidence := some 2 } guidC isoT0

/-- A schema-clean instance whose source and target coincide. -/
def c6Same : Correlation :=
  Correlation.construct (c5Data guidA guidA) guidC isoT0

/-- Witness for C6: both simultaneous violations are reported together,
the raised error carries the full collected list, and the source=target
business rule fires once the schema is clean. -/
theorem claim_c6_witness :
    "confidence must be between 0 and 1" ∈ c6Bad.schemaViolations
    ∧ "type must be one of the allowed correlation types"
        ∈ c6Bad.schemaViolations
    ∧ c6Bad.validateE
        = Except.error (ValidationError.schema c6Bad.schemaViolations)
    ∧ c6Same.validateE = Except.error (ValidationError.business
        "Source and target datasets cannot be the same") := by
  refine ⟨claim_c6_collects_all_then_business_rules.1 c6Bad ?_,
    claim_c6_collects_all_then_business_rules.2.1 c6Bad ?_,
    claim_c6_collects_all_then_business_rules.2.2.2.1 c6Bad ?_,
    claim_c6_collects_all_then_business_rules.2.2.2.2 c6Same ?_ ?_⟩
  · right
    decide
  · decide
  · decide
  · decide
  · decide

/-- C7: when the callback returns, the acquired client sees BEGIN, the
callback's statements, then COMMIT, and the callback's result is
returned; when the callback raises, ROLLBACK is issued instead of COMMIT
and the error is re-raised; in both cases the client is released exactly
once. -/
theorem claim_c7_transaction_commit_rollback_release {α : Type}
    (a : α) (e : String) (s : List String) (h : "COMMIT" ∉ s) :
    transaction true (Except.ok a) s
      = (Except.ok a, "BEGIN" :: s ++ ["COMMIT"], 1)
    ∧ transaction true (Except.error (α := α) e) s
      = (Except.error e, "BEGIN" :: s ++ ["ROLLBACK"], 1)
    ∧ "COMMIT" ∉ (transaction true (Except.error (α := α) e) s).2.1 := by
  refine ⟨rfl, rfl, ?_⟩
  simp [transaction, h]

/-- Witness for C7 with a one-statement callback. -/
theorem claim_c7_witness :
    transaction true (Except.ok (42 : Nat)) ["INSERT INTO correlations"]
      = (Except.ok 42, ["BEGIN", "INSERT INTO correlations", "COMMIT"], 1)
    ∧ transaction true (Except.error (α := Nat) "boom")
        ["INSERT INTO correlations"]
      = (Except.error "boom",
         ["BEGIN", "INSERT INTO correlations", "ROLLBACK"], 1)
    ∧ "COMMIT" ∉ (transaction true (Except.error (α := Nat) "boom")
        ["INSERT INTO correlations"]).2.1 := by
  have h := claim_c7_transaction_commit_rollback_release (42 : Nat) "boom"
    ["INSERT INTO correlations"] (by decide)
  exact ⟨h.1, h.2.1, h.2.2⟩

/-- C8 counterexample: a constructed entity can have an empty id — the
`Object.assign(this, data)` re-copy overrides the uuid default when the
construction data carries an explicitly empty id. -/
theorem claim_c8_counterexample :
    (Correlation.construct { id := some "" } guidC isoT0).id = "" := rfl

/-- C8 amended: provided the construction data does not carry an
explicitly empty id (absent or non-empty) and the generated uuid is
non-empty, the constructed entity's id is non-empty; and for every
constructed entity the ToDatabase/FromDatabase round-trip reproduces the
instance — id and every schema field — unchanged. -/
theorem claim_c8_id_and_roundtrip (d : CorrelationData) (f n : String)
    (hf : f ≠ "") (h : d.id ≠ some "") :
    (Correlation.construct d f n).id ≠ ""
    ∧ Correlation.fromDatabaseRow
        (Correlation.toDatabase (Correlation.construct d f n))
      = Correlation.construct d f n := by
  refine ⟨?_, Correlation.fromDatabase_toDatabase d f n⟩
  cases hid : d.id with
  | none => simpa [Correlation.construct, hid] using hf
  | some s =>
    simp only [Correlation.construct, hid, Option.getD_some]
    intro hs
    exact h (by rw [hid, hs])

/-- Witness for C8's amended claim at a concrete instance. -/
theorem claim_c8_witness :
    (Correlation.construct (c5Data guidA guidB) guidC isoT0).id ≠ ""
    ∧ Correlation.fromDatabaseRow
        (Correlation.toDatabase
          (Correlation.construct (c5Data guidA guidB) guidC isoT0))
      = Correlation.construct (c5Data guidA guidB) guidC isoT0 := by
  exact claim_c8_id_and_roundtrip (c5Data guidA guidB) guidC isoT0
    (by decide) (by decide)

/-- C9 counterexample: two `findRecentlyAccessed` calls differing only
in the `days` value produce different query texts — the value is
interpolated, not bound. -/
theorem claim_c9_counterexample :
    findRecentlyAccessedQuery 7 ≠ findRecentlyAccessedQuery 8 := by
  decide

/-- C9 amended: `findAll`, `count` and `search` bind all filter/search
values positionally, so the generated text is unchanged under any change
of the values (same columns, same array/scalar shape) or of the search
term; but `findRecentlyAccessed` interpolates its `days` argument
directly into the text, and the interpolated identifiers (the where-bag
keys and `orderBy`, besides the Model-derived table name) come from the
caller's options, not from the Model's schema. -/
theorem claim_c9_values_bound_identifiers_interpolated
    (b1 b2 : List (String × JsVal)) (h : whereShape b1 = whereShape b2)
    (lim off : Int) (oB oD t1 t2 : String) (fs : List String) (sl : Int) :
    (findAllQuery "correlations"
        { limit := lim, offset := off, orderBy := oB, order := oD,
          whereBag := b1 }).1
      = (findAllQuery "correlations"
        { limit := lim, offset := off, orderBy := oB, order := oD,
          whereBag := b2 }).1
    ∧ (countQuery "correlations" b1).1 = (countQuery "correlations" b2).1
    ∧ (searchQuery "correlations" t1 fs sl).1
      = (searchQuery "correlations" t2 fs sl).1
    ∧ (∀ d : Int, findRecentlyAccessedQuery d
        = "SELECT * FROM datasets WHERE last_accessed >= NOW() - INTERVAL '"
          ++ toString d ++ " days' ORDER BY last_accessed DESC")
    ∧ (findAllQuery "correlations" { orderBy := "createdAt" }).1
      ≠ (findAllQuery "correlations" { orderBy := "confidence" }).1
    ∧ (findAllQuery "correlations"
        { whereBag := [("status", JsVal.str "active")] }).1
      ≠ (findAllQuery "correlations"
        { whereBag := [("owner_id", JsVal.str "active")] }).1 := by
  obtain ⟨hc, hi⟩ := buildWhere_shape b1 b2 1 h
  refine ⟨?_, ?_, rfl, fun d => rfl, by decide, by decide⟩
  · simp [findAllQuery, hc, hi]
  · simp [countQuery, hc]

/-- Witness for C9's amended claim: two array filters of different
values and lengths, and two search terms, give identical query texts. -/
theorem claim_c9_witness :
    (findAllQuery "correlations" { whereBag := [("id", JsVal.arr ["x"])] }).1
      = (findAllQuery "correlations"
          { whereBag := [("id", JsVal.arr ["y", "z"])] }).1
    ∧ (searchQuery "correlations" "apples" ["name"] 50).1
      = (searchQuery "correlations" "oranges" ["name"] 50).1 := by
  have h := claim_c9_values_bound_identifiers_interpolated
    [("id", JsVal.arr ["x"])] [("id", JsVal.arr ["y", "z"])] (by decide)
    50 0 "createdAt" "DESC" "apples" "oranges" ["name"] 50
  exact ⟨h.1, h.2.2.1⟩
